import Mathlib

/-!
Verification of the game-state and entity-update core of a browser arcade
shooter (`game.js`) against its natural-language specification.

The JavaScript source is shallowly embedded: positions and sizes are
rationals (JS numbers used by the relevant code paths stay exact on the
inputs considered), health / score / lives are integers, clock times are
naturals, JS `Map`s keyed by strings or power-up types are association
lists with `Map.set` update-in-place-or-append semantics, and the in-place
index loops of `checkCollisions` are modelled by fuel-indexed recursion
that mirrors the source's iteration direction and `splice` calls.
-/

namespace SpaceShooter

/-- Axis-aligned rectangle: position and size, as used by every entity of
`game.js` (`x`, `y`, `width`, `height`). -/
structure Rect where
  x : ℚ
  y : ℚ
  w : ℚ
  h : ℚ
deriving DecidableEq

/-- The AABB overlap test used by `checkCollisions`:
`a.x < b.x + b.width && a.x + a.width > b.x && a.y < b.y + b.height && a.y + a.height > b.y`. -/
def rectsOverlap (a b : Rect) : Bool :=
  decide (a.x < b.x + b.w) && decide (a.x + a.w > b.x) &&
  decide (a.y < b.y + b.h) && decide (a.y + a.h > b.y)

/-- An `Enemy` of `game.js`: position, size, health pool, health-bar flag.
(The downward speed and color do not enter any claim and are omitted.) -/
structure Enemy where
  x : ℚ
  y : ℚ
  width : ℚ
  height : ℚ
  maxHealth : ℤ
  currentHealth : ℤ
  healthBarVisible : Bool
deriving DecidableEq

/-- The health roll of `Enemy.constructor`:
`this.maxHealth = Math.floor(Math.random() * 3) + 2`, where the random
draw `r` satisfies `0 ≤ r < 1`. -/
def spawnMaxHealth (r : ℚ) : ℤ := ⌊r * 3⌋ + 2

/-- `Enemy` construction at a given position with health roll `r`
(`this.currentHealth = this.maxHealth`, `this.healthBarVisible = false`,
fixed 30×30 size). -/
def mkEnemy (x y r : ℚ) : Enemy :=
  { x := x, y := y, width := 30, height := 30,
    maxHealth := spawnMaxHealth r, currentHealth := spawnMaxHealth r,
    healthBarVisible := false }

/-- The bounding box of an enemy, as read by the collision passes. -/
def enemyRect (e : Enemy) : Rect :=
  { x := e.x, y := e.y, w := e.width, h := e.height }

/-- `Enemy.takeDamage(amount)`: decrement `currentHealth`, set
`healthBarVisible`, clamp health at 0, and report `isDestroyed()`
(`currentHealth <= 0`). -/
def takeDamage (e : Enemy) (amount : ℤ) : Enemy × Bool :=
  let h0 := e.currentHealth - amount
  let h1 := if h0 < 0 then 0 else h0
  let e2 : Enemy := { e with currentHealth := h1, healthBarVisible := true }
  (e2, decide (e2.currentHealth ≤ 0))

/-- `N` successive 1-damage hits on an enemy, with the removal semantics of
the non-explosive branch of `checkCollisions`: a destroyed enemy is spliced
out (so it receives no further hits) and awards `updateScore(10)`.
State: (enemy record, removed-from-active-set flag, score gained). -/
def hitN : ℕ → Enemy × Bool × ℤ → Enemy × Bool × ℤ
  | 0, st => st
  | n + 1, (e, removed, sc) =>
      if removed then hitN n (e, removed, sc)
      else
        if (takeDamage e 1).2 then hitN n ((takeDamage e 1).1, true, sc + 10)
        else hitN n ((takeDamage e 1).1, false, sc)

lemma hitN_removed (n : ℕ) (e : Enemy) (sc : ℤ) :
    hitN n (e, true, sc) = (e, true, sc) := by
  induction n with
  | zero => rfl
  | succ n ih => simpa [hitN] using ih

lemma takeDamage_one_of_pos (e : Enemy) (h : 0 < e.currentHealth) :
    takeDamage e 1 =
      ({ e with currentHealth := e.currentHealth - 1, healthBarVisible := true },
        decide (e.currentHealth - 1 ≤ 0)) := by
  have h0 : ¬ e.currentHealth - 1 < 0 := by omega
  simp [takeDamage, h0]

lemma hitN_succ_live (n : ℕ) (e : Enemy) (sc : ℤ) (hpos : 0 < e.currentHealth) :
    hitN (n + 1) (e, false, sc) =
      if e.currentHealth - 1 ≤ 0 then
        hitN n ({ e with currentHealth := e.currentHealth - 1, healthBarVisible := true },
          true, sc + 10)
      else
        hitN n ({ e with currentHealth := e.currentHealth - 1, healthBarVisible := true },
          false, sc) := by
  simp only [hitN, takeDamage_one_of_pos e hpos, Bool.false_eq_true, if_false,
    decide_eq_true_eq]

/-- Main computation lemma for `hitN` on a live enemy: after `N` hits,
health is `max 0 (h - N)`, the enemy is removed iff `h ≤ N`, and removal
awards exactly 10 points. -/
lemma hitN_spec (n : ℕ) (e : Enemy) (sc : ℤ) (hpos : 0 < e.currentHealth) :
    (hitN n (e, false, sc)).1.currentHealth = max 0 (e.currentHealth - n) ∧
    ((hitN n (e, false, sc)).2.1 = true ↔ e.currentHealth ≤ n) ∧
    (hitN n (e, false, sc)).2.2 = sc + (if e.currentHealth ≤ (n : ℤ) then 10 else 0) := by
  induction n generalizing e sc with
  | zero =>
      refine ⟨?_, ?_, ?_⟩
      · simp only [hitN]; omega
      · simp only [hitN]; constructor
        · intro h; exact absurd h (by simp)
        · intro h; exact absurd h (by push_cast; omega)
      · simp only [hitN]; rw [if_neg (by push_cast; omega)]; ring
  | succ n ih =>
      rw [hitN_succ_live n e sc hpos]
      by_cases h1 : e.currentHealth - 1 ≤ 0
      · rw [if_pos h1, hitN_removed]
        refine ⟨?_, ?_, ?_⟩
        · show e.currentHealth - 1 = max 0 (e.currentHealth - ((n + 1 : ℕ) : ℤ))
          push_cast
          omega
        · show (true = true) ↔ e.currentHealth ≤ ((n + 1 : ℕ) : ℤ)
          refine ⟨fun hx => ?_, fun hx => rfl⟩
          push_cast
          omega
        · rw [if_pos (show e.currentHealth ≤ ((n + 1 : ℕ) : ℤ) by push_cast; omega)]
      · rw [if_neg h1]
        have ih2 := ih { e with currentHealth := e.currentHealth - 1,
                                healthBarVisible := true } sc (by simp; omega)
        refine ⟨?_, ?_, ?_⟩
        · rw [ih2.1]
          show max 0 (e.currentHealth - 1 - (n : ℤ))
              = max 0 (e.currentHealth - ((n + 1 : ℕ) : ℤ))
          push_cast
          omega
        · rw [ih2.2.1]
          show e.currentHealth - 1 ≤ (n : ℤ) ↔ e.currentHealth ≤ ((n + 1 : ℕ) : ℤ)
          push_cast
          omega
        · rw [ih2.2.2]; simp only
          by_cases hc : e.currentHealth ≤ (n : ℤ) + 1
          · rw [if_pos (by omega), if_pos (by push_cast; omega)]
          · rw [if_neg (by omega), if_neg (by push_cast; omega)]

end SpaceShooter

namespace SpaceShooter

/-- C8: an enemy's `maxHealth` at spawn lies in `[2, 4]`; after `N` hits of
1 damage each, `currentHealth = max 0 (maxHealth - N)`; the enemy is
removed from the active set iff that value is 0, and removal awards
+10 score. -/
theorem C8_enemy_health (x y r : ℚ) (hr0 : 0 ≤ r) (hr1 : r < 1) (n : ℕ) :
    (2 ≤ (mkEnemy x y r).maxHealth ∧ (mkEnemy x y r).maxHealth ≤ 4) ∧
    (hitN n (mkEnemy x y r, false, 0)).1.currentHealth
        = max 0 ((mkEnemy x y r).maxHealth - n) ∧
    ((hitN n (mkEnemy x y r, false, 0)).2.1 = true ↔
        max 0 ((mkEnemy x y r).maxHealth - (n : ℤ)) = 0) ∧
    (hitN n (mkEnemy x y r, false, 0)).2.2
        = (if (hitN n (mkEnemy x y r, false, 0)).2.1 = true then 10 else 0) := by
  have hbound : 2 ≤ spawnMaxHealth r ∧ spawnMaxHealth r ≤ 4 := by
    constructor
    · have h0 : (0 : ℤ) ≤ ⌊r * 3⌋ := by
        apply Int.le_floor.mpr; push_cast; nlinarith
      unfold spawnMaxHealth; omega
    · have h3 : ⌊r * 3⌋ < 3 := by
        apply Int.floor_lt.mpr; push_cast; nlinarith
      unfold spawnMaxHealth; omega
  have hcur : (mkEnemy x y r).currentHealth = spawnMaxHealth r := rfl
  have hmax : (mkEnemy x y r).maxHealth = spawnMaxHealth r := rfl
  have hpos : 0 < (mkEnemy x y r).currentHealth := by rw [hcur]; omega
  have hs := hitN_spec n (mkEnemy x y r) 0 hpos
  refine ⟨by rw [hmax]; exact hbound, ?_, ?_, ?_⟩
  · rw [hs.1, hcur, hmax]
  · rw [hs.2.1, hcur, hmax]; omega
  · rw [hs.2.2]
    by_cases hc : (mkEnemy x y r).currentHealth ≤ (n : ℤ)
    · rw [if_pos hc, if_pos (hs.2.1.mpr hc)]; ring
    · rw [if_neg hc, if_neg (fun hcon => hc (hs.2.1.mp hcon))]; ring

/-- Witness for C8 at a concrete health roll and hit count. -/
theorem C8_enemy_health_witness :
    (0 : ℚ) ≤ 1/2 ∧ (1/2 : ℚ) < 1 ∧
    ((2 ≤ (mkEnemy 10 20 (1/2)).maxHealth ∧ (mkEnemy 10 20 (1/2)).maxHealth ≤ 4) ∧
      (hitN 3 (mkEnemy 10 20 (1/2), false, 0)).1.currentHealth =
        max 0 ((mkEnemy 10 20 (1/2)).maxHealth - 3) ∧
      ((hitN 3 (mkEnemy 10 20 (1/2), false, 0)).2.1 = true ↔
        max 0 ((mkEnemy 10 20 (1/2)).maxHealth - (3 : ℤ)) = 0) ∧
      (hitN 3 (mkEnemy 10 20 (1/2), false, 0)).2.2 =
        (if (hitN 3 (mkEnemy 10 20 (1/2), false, 0)).2.1 = true then 10 else 0)) :=
  ⟨by norm_num, by norm_num,
    C8_enemy_health 10 20 (1/2) (by norm_num) (by norm_num) 3⟩

end SpaceShooter

namespace SpaceShooter

/-- The player-enemy collision pass of `checkCollisions` (its second loop):
`for (let i = enemies.length - 1; i >= 0; i--)`, on AABB overlap with the
player either deflect (shield active and invincible: enemy spliced out, no
lives change) or splice the enemy out, `updateLives(-1)`, and call
`gameOver()` when `lives <= 0` (which transitions to the game-over state
but does not stop the loop).  The fuel argument is one more than the next
index to examine; erasing index `i` leaves the not-yet-visited indices
`< i` untouched, exactly as `splice` does under the downward iteration.
State: (enemy rectangles, lives, gameOver-called flag). -/
def peLoop (invincible shieldActive : Bool) (p : Rect) :
    ℕ → List Rect × ℤ × Bool → List Rect × ℤ × Bool
  | 0, st => st
  | i + 1, (es, lives, g) =>
      match es.get? i with
      | none => peLoop invincible shieldActive p i (es, lives, g)
      | some e =>
          if rectsOverlap e p then
            if invincible && shieldActive then
              peLoop invincible shieldActive p i (es.eraseIdx i, lives, g)
            else
              peLoop invincible shieldActive p i
                (es.eraseIdx i, lives - 1, g || decide (lives - 1 ≤ 0))
          else peLoop invincible shieldActive p i (es, lives, g)

/-- One whole player-enemy collision pass over the current enemy list. -/
def playerEnemyPass (invincible shieldActive : Bool) (p : Rect)
    (es : List Rect) (lives : ℤ) : List Rect × ℤ × Bool :=
  peLoop invincible shieldActive p es.length (es, lives, false)

lemma peLoop_lives (inv shd : Bool) (hs : (inv && shd) = false) (p : Rect) :
    ∀ (i : ℕ) (es : List Rect) (lives : ℤ) (g : Bool),
      (peLoop inv shd p i (es, lives, g)).2.1 =
        lives - ((es.take i).countP (fun e => rectsOverlap e p)) := by
  intro i
  induction i with
  | zero =>
      intro es lives g
      simp [peLoop]
  | succ i ih =>
      intro es lives g
      cases hg : es.get? i with
      | none =>
          have hlen : es.length ≤ i := List.get?_eq_none.mp hg
          simp only [peLoop, hg]
          rw [ih, List.take_of_length_le (by omega), List.take_of_length_le (by omega)]
      | some e =>
          have hi : i < es.length := by
            by_contra hcon
            rw [List.get?_eq_none.mpr (by omega)] at hg
            exact Option.noConfusion hg
          have hg2 : es[i]? = some e := by
            rw [← List.get?_eq_getElem?]
            exact hg
          have htake : es.take (i + 1) = es.take i ++ [e] := by
            rw [List.take_succ, hg2]
            rfl
          have herase : (es.eraseIdx i).take i = es.take i := by
            rw [List.eraseIdx_eq_take_drop_succ]
            exact List.take_left' (by rw [List.length_take]; omega)
          by_cases ho : rectsOverlap e p
          · simp only [peLoop, hg, ho, if_true, hs, Bool.false_eq_true, if_false]
            rw [ih, herase, htake, List.countP_append]
            simp [ho]
            ring
          · simp only [peLoop, hg, ho, Bool.false_eq_true, if_false]
            rw [ih, htake, List.countP_append]
            simp [ho]

/-- The player bounding box at the start of a game session
(`x = 800/2 - 15`, `y = 600 - 50`, size 30×30). -/
def cePlayer : Rect := { x := 385, y := 550, w := 30, h := 30 }

/-- An enemy bounding box overlapping `cePlayer`. -/
def ceEnemy : Rect := { x := 380, y := 545, w := 30, h := 30 }

/-- C1 counterexample: from the Game-state entry value `lives = 3`, a single
player-enemy collision pass with four unshielded enemies overlapping the
player leaves `lives = -1 < 0`: `updateLives` does not clamp and the loop
keeps decrementing after `gameOver()` fires. -/
theorem C1_counterexample :
    (playerEnemyPass false false cePlayer [ceEnemy, ceEnemy, ceEnemy, ceEnemy] 3).2.1
        = -1 ∧
    ¬ (0 ≤ (playerEnemyPass false false cePlayer
        [ceEnemy, ceEnemy, ceEnemy, ceEnemy] 3).2.1) := by
  constructor
  · with_unfolding_all decide
  · with_unfolding_all decide

/-- C1 amended: in an unshielded player-enemy pass, `lives` drops by exactly
the number of enemies overlapping the player, so it stays non-negative iff
that count is at most the current lives; with `k ≥ 2` simultaneous overlaps
and `lives < k` it goes negative. -/
theorem C1_amended (inv shd : Bool) (hs : (inv && shd) = false) (p : Rect)
    (es : List Rect) (lives : ℤ)
    (hc : (es.countP (fun e => rectsOverlap e p) : ℤ) ≤ lives) :
    (playerEnemyPass inv shd p es lives).2.1 =
      lives - es.countP (fun e => rectsOverlap e p) ∧
    0 ≤ (playerEnemyPass inv shd p es lives).2.1 := by
  have h := peLoop_lives inv shd hs p es.length es lives false
  rw [List.take_length] at h
  exact ⟨h, by rw [playerEnemyPass, h]; omega⟩

/-- Witness for C1's amended statement: one overlapping enemy, three lives. -/
theorem C1_amended_witness :
    (false && false) = false ∧
    (([ceEnemy] : List Rect).countP (fun e => rectsOverlap e cePlayer) : ℤ) ≤ 3 ∧
    ((playerEnemyPass false false cePlayer [ceEnemy] 3).2.1 =
        3 - ([ceEnemy] : List Rect).countP (fun e => rectsOverlap e cePlayer) ∧
      0 ≤ (playerEnemyPass false false cePlayer [ceEnemy] 3).2.1) :=
  ⟨rfl, by with_unfolding_all decide,
    C1_amended false false rfl cePlayer [ceEnemy] 3 (by with_unfolding_all decide)⟩

end SpaceShooter

namespace SpaceShooter

/-- The held arrow keys read by `handleInput` (`keys['ArrowLeft']` etc.). -/
structure ArrowKeys where
  left : Bool
  right : Bool
  up : Bool
  down : Bool
deriving DecidableEq

/-- The movement part of `handleInput` / `GameState.handleInput`: four
sequential guarded moves mutating `player.x` then `player.y`
(`if (keys['ArrowLeft'] && player.x > 0) player.x -= player.speed;` and so
on), with canvas size `cw × ch` and player size `pw × ph`. -/
def handleInputMove (k : ArrowKeys) (x y speed pw ph cw ch : ℚ) : ℚ × ℚ :=
  let x1 := if k.left && decide (x > 0) then x - speed else x
  let x2 := if k.right && decide (x1 < cw - pw) then x1 + speed else x1
  let y1 := if k.up && decide (y > 0) then y - speed else y
  let y2 := if k.down && decide (y1 < ch - ph) then y1 + speed else y1
  (x2, y2)

/-- C3 counterexample: a player at `x = 3` (with the game's speed 5, canvas
800×600, player 30×30) receiving a left-move input ends at `x = -2`,
outside the canvas bounds: the guard `player.x > 0` does not clamp. -/
theorem C3_counterexample :
    (handleInputMove ⟨true, false, false, false⟩ 3 550 5 30 30 800 600).1 = -2 ∧
    ¬ (0 ≤ (handleInputMove ⟨true, false, false, false⟩ 3 550 5 30 30 800 600).1) := by
  constructor
  · with_unfolding_all decide
  · with_unfolding_all decide

/-- C3 amended: with the game's player speed 5 and no right-move held, a
left-move input applies only when `x > 0`, so the resulting `x` stays
above `-speed`; a player at `x = 0` remains exactly at `x = 0` (the clamped
scenario of the spec), but `x` is not clamped to `≥ 0` in general. -/
theorem C3_amended (k : ArrowKeys) (x y pw ph cw ch : ℚ)
    (hr : k.right = false) (hx : 0 ≤ x) :
    -5 < (handleInputMove k x y 5 pw ph cw ch).1 ∧
    (x = 0 → (handleInputMove k x y 5 pw ph cw ch).1 = 0) := by
  simp only [handleInputMove, hr, Bool.false_and, Bool.false_eq_true, if_false]
  by_cases hl : (k.left && decide (x > 0)) = true
  · rw [if_pos hl]
    have hx0 : x > 0 := by
      have := (Bool.and_eq_true _ _).mp hl
      exact of_decide_eq_true this.2
    exact ⟨by linarith, fun h0 => absurd h0 (by linarith)⟩
  · rw [if_neg hl]
    exact ⟨by linarith, fun h0 => h0⟩

/-- Witness for C3's amended statement at `x = 0`, left held. -/
theorem C3_amended_witness :
    (ArrowKeys.mk true false false false).right = false ∧ (0 : ℚ) ≤ 0 ∧
    (-5 < (handleInputMove ⟨true, false, false, false⟩ 0 550 5 30 30 800 600).1 ∧
      ((0 : ℚ) = 0 →
        (handleInputMove ⟨true, false, false, false⟩ 0 550 5 30 30 800 600).1 = 0)) :=
  ⟨rfl, le_refl 0,
    C3_amended ⟨true, false, false, false⟩ 0 550 30 30 800 600 rfl (le_refl 0)⟩

end SpaceShooter

namespace SpaceShooter

/-- `GAME_CONFIG.INITIAL_ENEMY_SPAWN_RATE`. -/
def INITIAL_ENEMY_SPAWN_RATE : ℕ := 2000

/-- `GAME_CONFIG.MIN_ENEMY_SPAWN_RATE`. -/
def MIN_ENEMY_SPAWN_RATE : ℕ := 800

/-- `GAME_CONFIG.SPAWN_RATE_DECREASE`. -/
def SPAWN_RATE_DECREASE : ℕ := 10

/-- Spawner state: the current spawn interval `enemySpawnRate` (ms) and the
wall-clock time of the last spawn. -/
structure SpawnState where
  enemySpawnRate : ℕ
  lastEnemySpawn : ℕ
deriving DecidableEq

/-- One invocation of `spawnEnemy()` at clock time `now`: when
`now - lastEnemySpawn > enemySpawnRate` an enemy is spawned,
`lastEnemySpawn` is set to `now`, and the interval is decreased by
`SPAWN_RATE_DECREASE` while it is above `MIN_ENEMY_SPAWN_RATE`. -/
def spawnEnemy (s : SpawnState) (now : ℕ) : SpawnState :=
  if (now : ℤ) - s.lastEnemySpawn > s.enemySpawnRate then
    { enemySpawnRate :=
        if s.enemySpawnRate > MIN_ENEMY_SPAWN_RATE
        then s.enemySpawnRate - SPAWN_RATE_DECREASE
        else s.enemySpawnRate,
      lastEnemySpawn := now }
  else s

/-- Spawner state on Game-state entry
(`enemySpawnRate = GAME_CONFIG.INITIAL_ENEMY_SPAWN_RATE`,
`lastEnemySpawn = 0`). -/
def initialSpawnState : SpawnState :=
  { enemySpawnRate := INITIAL_ENEMY_SPAWN_RATE, lastEnemySpawn := 0 }

/-- A whole run of the spawner over a sequence of frame clock readings. -/
def runSpawner (nows : List ℕ) : SpawnState :=
  nows.foldl spawnEnemy initialSpawnState

lemma spawnEnemy_rate_le (s : SpawnState) (now : ℕ) :
    (spawnEnemy s now).enemySpawnRate ≤ s.enemySpawnRate := by
  unfold spawnEnemy
  split
  · split
    · simp only
      omega
    · simp only
      omega
  · omega

lemma spawnEnemy_invariant (s : SpawnState) (now : ℕ)
    (h : MIN_ENEMY_SPAWN_RATE ≤ s.enemySpawnRate ∧ 10 ∣ s.enemySpawnRate) :
    MIN_ENEMY_SPAWN_RATE ≤ (spawnEnemy s now).enemySpawnRate ∧
      10 ∣ (spawnEnemy s now).enemySpawnRate := by
  unfold MIN_ENEMY_SPAWN_RATE at h
  unfold spawnEnemy MIN_ENEMY_SPAWN_RATE SPAWN_RATE_DECREASE
  split
  · split
    · simp only
      omega
    · simp only
      omega
  · omega

lemma foldl_spawnEnemy_invariant (nows : List ℕ) (s : SpawnState)
    (h : MIN_ENEMY_SPAWN_RATE ≤ s.enemySpawnRate ∧ 10 ∣ s.enemySpawnRate) :
    MIN_ENEMY_SPAWN_RATE ≤ (nows.foldl spawnEnemy s).enemySpawnRate ∧
      10 ∣ (nows.foldl spawnEnemy s).enemySpawnRate := by
  induction nows generalizing s with
  | nil => exact h
  | cons now rest ih => exact ih _ (spawnEnemy_invariant s now h)

lemma foldl_spawnEnemy_rate_le (nows : List ℕ) (s : SpawnState) :
    (nows.foldl spawnEnemy s).enemySpawnRate ≤ s.enemySpawnRate := by
  induction nows generalizing s with
  | nil => exact le_refl _
  | cons now rest ih =>
      exact le_trans (ih (spawnEnemy s now)) (spawnEnemy_rate_le s now)

/-- C7: the enemy spawn interval is non-increasing at every single spawner
invocation, and over every run starting from the initial 2000 ms it stays
between the 800 ms floor and 2000 ms. -/
theorem C7_spawn_interval (nows : List ℕ) :
    (∀ (s : SpawnState) (now : ℕ),
      (spawnEnemy s now).enemySpawnRate ≤ s.enemySpawnRate) ∧
    MIN_ENEMY_SPAWN_RATE ≤ (runSpawner nows).enemySpawnRate ∧
    (runSpawner nows).enemySpawnRate ≤ INITIAL_ENEMY_SPAWN_RATE := by
  refine ⟨spawnEnemy_rate_le, ?_, ?_⟩
  · exact (foldl_spawnEnemy_invariant nows initialSpawnState
      (by constructor <;> decide)).1
  · exact foldl_spawnEnemy_rate_le nows initialSpawnState

end SpaceShooter

namespace SpaceShooter

/-- Damage dealt by `applyExplosiveDamage(centerX, centerY, radius)` to an
enemy whose center is at the given distance from the impact point: within
the radius, `Math.ceil(minDamage + (maxDamage - minDamage) * damageRatio)`
with `maxDamage = 3`, `minDamage = 1`, `damageRatio = 1 - distance/radius`;
beyond the radius no damage is applied. -/
def explosiveDamage (distance radius : ℚ) : ℤ :=
  if distance ≤ radius then
    let maxDamage : ℚ := 3
    let minDamage : ℚ := 1
    let damageRatio : ℚ := 1 - distance / radius
    ⌈minDamage + (maxDamage - minDamage) * damageRatio⌉
  else 0

/-- C9: with the 50-pixel radius used by `checkCollisions`, explosive
damage is zero beyond the radius, monotonically non-increasing in the
distance, and strictly larger at distance 0 than at distance 25; the spec
scenario values are 3 at distance 0, 2 at 25, 0 at 60. -/
theorem C9_explosive_falloff :
    (∀ d : ℚ, 50 < d → explosiveDamage d 50 = 0) ∧
    (∀ d1 d2 : ℚ, 0 ≤ d1 → d1 ≤ d2 →
      explosiveDamage d2 50 ≤ explosiveDamage d1 50) ∧
    explosiveDamage 25 50 < explosiveDamage 0 50 ∧
    explosiveDamage 0 50 = 3 ∧ explosiveDamage 25 50 = 2 ∧
    explosiveDamage 60 50 = 0 := by
  have hval : ∀ d : ℚ, d ≤ 50 →
      explosiveDamage d 50 = ⌈(1 : ℚ) + (3 - 1) * (1 - d / 50)⌉ := by
    intro d hd
    unfold explosiveDamage
    rw [if_pos hd]
  have h0 : explosiveDamage 0 50 = 3 := by
    rw [hval 0 (by norm_num)]
    norm_num
  have h25 : explosiveDamage 25 50 = 2 := by
    rw [hval 25 (by norm_num)]
    norm_num
  have h60 : explosiveDamage 60 50 = 0 := by
    unfold explosiveDamage
    rw [if_neg (by norm_num)]
  refine ⟨?_, ?_, by rw [h0, h25]; norm_num, h0, h25, h60⟩
  · intro d hd
    unfold explosiveDamage
    rw [if_neg (by linarith)]
  · intro d1 d2 h1 h12
    by_cases hd2 : d2 ≤ 50
    · rw [hval d1 (by linarith), hval d2 hd2]
      apply Int.ceil_le_ceil
      have : d1 / 50 ≤ d2 / 50 := by linarith
      linarith
    · rw [show explosiveDamage d2 50 = 0 by
        unfold explosiveDamage; rw [if_neg hd2]]
      by_cases hd1 : d1 ≤ 50
      · rw [hval d1 hd1]
        have harg : (1 : ℚ) ≤ 1 + (3 - 1) * (1 - d1 / 50) := by
          have : d1 / 50 ≤ 1 := by linarith
          nlinarith
        have := Int.ceil_le_ceil (α := ℚ) harg
        simpa using le_trans (by norm_num) this
      · rw [show explosiveDamage d1 50 = 0 by
          unfold explosiveDamage; rw [if_neg hd1]]

/-- Witness for C9 at the spec's scenario distances 0, 25, 60. -/
theorem C9_explosive_falloff_witness :
    explosiveDamage 60 50 = 0 ∧
    explosiveDamage 25 50 ≤ explosiveDamage 0 50 :=
  ⟨C9_explosive_falloff.1 60 (by norm_num),
    C9_explosive_falloff.2.1 0 25 (by norm_num) (by norm_num)⟩

end SpaceShooter

namespace SpaceShooter

/-- A `POWER_UP_TYPES` catalog entry, with the fields the game reads
(`name`, `duration` in ms, `color`, `icon`; the description string is
display-only and omitted). -/
structure PowerUpConfig where
  name : String
  duration : ℕ
  color : String
  icon : String
deriving DecidableEq

/-- `POWER_UP_TYPES.RAPID_FIRE`. -/
def rapidFireConfig : PowerUpConfig :=
  { name := "Rapid Fire", duration := 10000, color := "#ff6b00", icon := "R" }

/-- `POWER_UP_TYPES.MULTI_SHOT`. -/
def multiShotConfig : PowerUpConfig :=
  { name := "Multi-Shot", duration := 15000, color := "#00ff6b", icon := "M" }

/-- `POWER_UP_TYPES.LASER_BEAM`. -/
def laserBeamConfig : PowerUpConfig :=
  { name := "Laser Beam", duration := 8000, color := "#6b00ff", icon := "L" }

/-- `POWER_UP_TYPES.SHIELD_GENERATOR`. -/
def shieldGeneratorConfig : PowerUpConfig :=
  { name := "Shield Generator", duration := 5000, color := "#00ffff", icon := "S" }

/-- `POWER_UP_TYPES.TIME_SLOW`. -/
def timeSlowConfig : PowerUpConfig :=
  { name := "Time Slow", duration := 12000, color := "#ffff00", icon := "T" }

/-- `POWER_UP_TYPES.EXPLOSIVE_ROUNDS`. -/
def explosiveRoundsConfig : PowerUpConfig :=
  { name := "Explosive Rounds", duration := 20000, color := "#ff0066", icon := "E" }

/-- What the bracket lookup `POWER_UP_TYPES[type]` can evaluate to on the
plain object literal `POWER_UP_TYPES`: one of its six own entries, a truthy
member inherited from `Object.prototype` (bracket access walks the
prototype chain, e.g. `POWER_UP_TYPES["constructor"]` is the `Object`
function), or `undefined` — the only falsy outcome. -/
inductive PropValue where
  | config (c : PowerUpConfig)
  | protoMember
  | undefinedVal
deriving DecidableEq

/-- The property names a plain object literal inherits from
`Object.prototype`, every one bound to a truthy function or object. -/
def objectPrototypeKeys : List String :=
  ["constructor", "hasOwnProperty", "isPrototypeOf", "propertyIsEnumerable",
    "toLocaleString", "toString", "valueOf", "__proto__",
    "__defineGetter__", "__defineSetter__", "__lookupGetter__",
    "__lookupSetter__"]

/-- The string-keyed property lookup `POWER_UP_TYPES[type]`, prototype
chain included: an own catalog entry for the six keys, a truthy inherited
member for `Object.prototype` property names, `undefined` otherwise. -/
def powerUpTypesLookup (type : String) : PropValue :=
  if type = "RAPID_FIRE" then .config rapidFireConfig
  else if type = "MULTI_SHOT" then .config multiShotConfig
  else if type = "LASER_BEAM" then .config laserBeamConfig
  else if type = "SHIELD_GENERATOR" then .config shieldGeneratorConfig
  else if type = "TIME_SLOW" then .config timeSlowConfig
  else if type = "EXPLOSIVE_ROUNDS" then .config explosiveRoundsConfig
  else if type ∈ objectPrototypeKeys then .protoMember
  else .undefinedVal

/-- A `PowerUp` pickup as built by `PowerUp.constructor(x, y, type)`:
fixed 20×20 size, speed 2, `collected = false`, and `typeConfig` set to
`POWER_UP_TYPES[type]`, replaced by the Rapid Fire entry only when that
lookup is falsy (`if (!this.typeConfig)`); the constructor warns and never
throws. -/
structure PowerUpPickup where
  x : ℚ
  y : ℚ
  width : ℚ
  height : ℚ
  speed : ℚ
  type : String
  typeConfig : PropValue
  collected : Bool
deriving DecidableEq

/-- `PowerUp.constructor(x, y, type)`. -/
def mkPowerUp (x y : ℚ) (type : String) : PowerUpPickup :=
  { x := x, y := y, width := 20, height := 20, speed := 2, type := type,
    typeConfig :=
      match powerUpTypesLookup type with
      | PropValue.undefinedVal => PropValue.config rapidFireConfig
      | v => v,
    collected := false }

/-- C10 counterexample: constructing a pickup with the out-of-catalog type
string `"constructor"` stores the truthy member inherited from
`Object.prototype`, so the falsy-check fallback does not fire and
`typeConfig` is not one of the six catalog entries. -/
theorem C10_counterexample :
    (mkPowerUp 0 0 "constructor").typeConfig = PropValue.protoMember ∧
    (mkPowerUp 0 0 "constructor").typeConfig ∉
      ([rapidFireConfig, multiShotConfig, laserBeamConfig,
        shieldGeneratorConfig, timeSlowConfig,
        explosiveRoundsConfig].map PropValue.config) := by
  constructor
  · rfl
  · decide

/-- C10 amended: the constructor never fails; for every type string that is
not an `Object.prototype` property name, `typeConfig` is one of the six
catalog entries (the queried entry for catalog keys, the Rapid Fire
fallback otherwise); but for the inherited property names
(`"constructor"`, `"toString"`, ...) the bracket lookup is truthy, the
fallback does not fire, and `typeConfig` is the inherited member rather
than a catalog entry. -/
theorem C10_pickup_config (x y : ℚ) (type : String) :
    (type ∉ objectPrototypeKeys →
      (mkPowerUp x y type).typeConfig ∈
        ([rapidFireConfig, multiShotConfig, laserBeamConfig,
          shieldGeneratorConfig, timeSlowConfig,
          explosiveRoundsConfig].map PropValue.config)) ∧
    (type ∈ objectPrototypeKeys →
      (mkPowerUp x y type).typeConfig = PropValue.protoMember) := by
  constructor
  · intro hmem
    show (match powerUpTypesLookup type with
      | PropValue.undefinedVal => PropValue.config rapidFireConfig
      | v => v) ∈ _
    unfold powerUpTypesLookup
    split_ifs <;> simp_all
  · intro hmem
    show (match powerUpTypesLookup type with
      | PropValue.undefinedVal => PropValue.config rapidFireConfig
      | v => v) = PropValue.protoMember
    unfold powerUpTypesLookup
    have hne1 : ¬ type = "RAPID_FIRE" := fun hc => absurd (hc ▸ hmem) (by decide)
    have hne2 : ¬ type = "MULTI_SHOT" := fun hc => absurd (hc ▸ hmem) (by decide)
    have hne3 : ¬ type = "LASER_BEAM" := fun hc => absurd (hc ▸ hmem) (by decide)
    have hne4 : ¬ type = "SHIELD_GENERATOR" :=
      fun hc => absurd (hc ▸ hmem) (by decide)
    have hne5 : ¬ type = "TIME_SLOW" := fun hc => absurd (hc ▸ hmem) (by decide)
    have hne6 : ¬ type = "EXPLOSIVE_ROUNDS" :=
      fun hc => absurd (hc ▸ hmem) (by decide)
    rw [if_neg hne1, if_neg hne2, if_neg hne3, if_neg hne4, if_neg hne5,
      if_neg hne6, if_pos hmem]

/-- Witness for C10's amended statement, at an unknown key (fallback fires)
and at an inherited `Object.prototype` key (fallback does not fire). -/
theorem C10_pickup_config_witness :
    ("PLASMA" ∉ objectPrototypeKeys ∧
      (mkPowerUp 0 0 "PLASMA").typeConfig ∈
        ([rapidFireConfig, multiShotConfig, laserBeamConfig,
          shieldGeneratorConfig, timeSlowConfig,
          explosiveRoundsConfig].map PropValue.config)) ∧
    ("toString" ∈ objectPrototypeKeys ∧
      (mkPowerUp 0 0 "toString").typeConfig = PropValue.protoMember) :=
  ⟨⟨by decide, (C10_pickup_config 0 0 "PLASMA").1 (by decide)⟩,
    ⟨by decide, (C10_pickup_config 0 0 "toString").2 (by decide)⟩⟩

end SpaceShooter

namespace SpaceShooter

/-- A JS object passed to `GameStateManager.addState`, as far as the
registration check can observe it: a distinguishing `name` property (every
`State` subclass sets one), whether it is an `instanceof State`, and which
of the five interface methods it carries.  In the source every `State`
instance inherits all five methods from the `State` prototype, so
`isStateInstance = true` entails the five method fields in any faithful
instantiation; the registration code itself only tests `instanceof`. -/
structure CandidateState where
  stateName : String
  isStateInstance : Bool
  hasUpdate : Bool
  hasRender : Bool
  hasEnter : Bool
  hasExit : Bool
  hasHandleInput : Bool
deriving DecidableEq

/-- `Map.prototype.set` on a JS `Map` held as an association list in
insertion order: replace in place when the key is present, append
otherwise. -/
def mapSet {κ α : Type} [DecidableEq κ] (m : List (κ × α)) (k : κ) (v : α) :
    List (κ × α) :=
  match m with
  | [] => [(k, v)]
  | (k0, v0) :: rest =>
      if k0 = k then (k, v) :: rest else (k0, v0) :: mapSet rest k v

/-- `Map.prototype.get`. -/
def mapGet {κ α : Type} [DecidableEq κ] (m : List (κ × α)) (k : κ) : Option α :=
  match m with
  | [] => none
  | (k0, v0) :: rest => if k0 = k then some v0 else mapGet rest k

lemma mapGet_mapSet {κ α : Type} [DecidableEq κ] (m : List (κ × α)) (k : κ) (v : α) :
    mapGet (mapSet m k v) k = some v := by
  induction m with
  | nil => simp [mapSet, mapGet]
  | cons p rest ih =>
      by_cases hk : p.1 = k
      · simp [mapSet, mapGet, hk]
      · simp only [mapSet, mapGet, hk, if_false]
        exact ih

/-- `GameStateManager.addState(name, state)`: returns `false` (after
logging) when the name is falsy (empty), the state is null, or the state is
not an `instanceof State`; otherwise `this.states.set(name, state)` and
returns `true` — with no check that the name is still unused. -/
def addState (states : List (String × CandidateState)) (name : String)
    (state : Option CandidateState) :
    List (String × CandidateState) × Bool :=
  match state with
  | none => (states, false)
  | some s =>
      if name = "" then (states, false)
      else if s.isStateInstance = false then (states, false)
      else (mapSet states name s, true)

/-- Two distinct `State` instances (both carry the full interface). -/
def ceState1 : CandidateState :=
  { stateName := "IntroState", isStateInstance := true, hasUpdate := true,
    hasRender := true, hasEnter := true, hasExit := true, hasHandleInput := true }

/-- A second, different `State` instance registered under the same name. -/
def ceState2 : CandidateState :=
  { stateName := "GameState", isStateInstance := true, hasUpdate := true,
    hasRender := true, hasEnter := true, hasExit := true, hasHandleInput := true }

/-- C2 counterexample: re-registering the name `"A"` with a second state
succeeds (`addState` returns `true`) and silently replaces the previously
registered state, contradicting the claim that a duplicate name fails and
leaves the old entry unchanged. -/
theorem C2_counterexample :
    (addState [("A", ceState1)] "A" (some ceState2)).2 = true ∧
    mapGet (addState [("A", ceState1)] "A" (some ceState2)).1 "A" = some ceState2 ∧
    ceState2 ≠ ceState1 := by
  refine ⟨rfl, ?_, by decide⟩
  show mapGet (mapSet [("A", ceState1)] "A" ceState2) "A" = some ceState2
  exact mapGet_mapSet _ _ _

/-- C2 amended: `addState` fails (returns `false`, table untouched) exactly
when the name is empty, the state is absent, or the state is not an
`instanceof State` — in particular any object that is not a `State`
instance (the only way to lack the update/render/enter/exit/handleInput
interface, which the `State` prototype always provides) is rejected; but a
valid registration under an already-used name succeeds and overwrites the
existing entry. -/
theorem C2_amended (states : List (String × CandidateState)) (name : String)
    (s : CandidateState) (hname : name ≠ "") (hinst : s.isStateInstance = true) :
    addState states name (some s) = (mapSet states name s, true) ∧
    mapGet (addState states name (some s)).1 name = some s ∧
    addState states name none = (states, false) ∧
    (∀ s' : CandidateState, s'.isStateInstance = false →
      addState states name (some s') = (states, false)) ∧
    (∀ st : Option CandidateState, addState states "" st = (states, false)) := by
  have hok : addState states name (some s) = (mapSet states name s, true) := by
    show (if name = "" then (states, false)
      else if s.isStateInstance = false then (states, false)
      else (mapSet states name s, true)) = (mapSet states name s, true)
    rw [if_neg hname, hinst]
    simp
  refine ⟨hok, by rw [hok]; exact mapGet_mapSet states name s, rfl, ?_, ?_⟩
  · intro s' hs'
    show (if name = "" then (states, false)
      else if s'.isStateInstance = false then (states, false)
      else (mapSet states name s', true)) = (states, false)
    rw [if_neg hname, hs']
    simp
  · intro st
    cases st with
    | none => rfl
    | some s' =>
        show (if "" = "" then (states, false)
          else if s'.isStateInstance = false then (states, false)
          else (mapSet states "" s', true)) = (states, false)
        rw [if_pos rfl]

/-- Witness for C2's amended statement: re-registering `"A"` overwrites. -/
theorem C2_amended_witness :
    "A" ≠ "" ∧ ceState2.isStateInstance = true ∧
    (addState [("A", ceState1)] "A" (some ceState2) =
        (mapSet [("A", ceState1)] "A" ceState2, true) ∧
      mapGet (addState [("A", ceState1)] "A" (some ceState2)).1 "A" = some ceState2 ∧
      addState [("A", ceState1)] "A" none = ([("A", ceState1)], false) ∧
      (∀ s' : CandidateState, s'.isStateInstance = false →
        addState [("A", ceState1)] "A" (some s') = ([("A", ceState1)], false)) ∧
      (∀ st : Option CandidateState,
        addState [("A", ceState1)] "" st = ([("A", ceState1)], false))) :=
  ⟨by decide, rfl, C2_amended [("A", ceState1)] "A" ceState2 (by decide) rfl⟩

end SpaceShooter

namespace SpaceShooter

/-- The inner enemy loop of the bullet-enemy pass of `checkCollisions` for
one bullet: `for (let j = enemies.length - 1; j >= 0; j--)` with a `break`
at the first AABB overlap.  The fuel argument is one more than the next
index to test; the scan therefore returns the overlapping index closest to
the END of the list. -/
def lastOverlapAux (b : Rect) (es : List Rect) : ℕ → Option ℕ
  | 0 => none
  | j + 1 =>
      match es.get? j with
      | some e => if rectsOverlap b e then some j else lastOverlapAux b es j
      | none => lastOverlapAux b es j

/-- Index of the enemy that consumes the bullet `b`, if any. -/
def bulletHitIndex (b : Rect) (es : List Rect) : Option ℕ :=
  lastOverlapAux b es es.length

/-- Bullet-enemy resolution for one bullet with Explosive Rounds inactive:
locate the hit enemy (downward scan), consume the bullet, apply
`takeDamage(1)`; a destroyed enemy is spliced out and awards
`updateScore(10)`, a surviving one stays with its health bar shown.
Returns (enemy list, score, bullet-consumed flag). -/
def bulletEnemyPass (b : Rect) (es : List Enemy) (score : ℤ) :
    List Enemy × ℤ × Bool :=
  match bulletHitIndex b (es.map enemyRect) with
  | none => (es, score, false)
  | some j =>
      match es.get? j with
      | none => (es, score, false)
      | some e =>
          if (takeDamage e 1).2 then (es.eraseIdx j, score + 10, true)
          else (es.set j (takeDamage e 1).1, score, true)

lemma lastOverlapAux_spec (b : Rect) (es : List Rect) :
    ∀ (n j : ℕ), lastOverlapAux b es n = some j →
      j < n ∧ (∃ e, es.get? j = some e ∧ rectsOverlap b e = true) ∧
      ∀ k e', j < k → k < n → es.get? k = some e' →
        rectsOverlap b e' = false := by
  intro n
  induction n with
  | zero =>
      intro j h
      exact absurd h (by simp [lastOverlapAux])
  | succ n ih =>
      intro j h
      cases hg : es.get? n with
      | some e =>
          by_cases ho : rectsOverlap b e = true
          · have hj : j = n := by
              simp only [lastOverlapAux, hg, ho, if_true] at h
              exact (Option.some_inj.mp h).symm
            subst hj
            refine ⟨Nat.lt_succ_self _, ⟨e, hg, ho⟩, ?_⟩
            intro k e' hk1 hk2 _
            exact absurd hk2 (by omega)
          · have h2 : lastOverlapAux b es n = some j := by
              simpa only [lastOverlapAux, hg, ho, if_false] using h
            obtain ⟨hjn, hex, hall⟩ := ih j h2
            refine ⟨by omega, hex, ?_⟩
            intro k e' hk1 hk2 hg'
            by_cases hkn : k = n
            · subst hkn
              rw [hg] at hg'
              have he : e = e' := Option.some_inj.mp hg'
              subst he
              simpa using ho
            · exact hall k e' hk1 (by omega) hg'
      | none =>
          have h2 : lastOverlapAux b es n = some j := by
            simpa only [lastOverlapAux, hg] using h
          obtain ⟨hjn, hex, hall⟩ := ih j h2
          refine ⟨by omega, hex, ?_⟩
          intro k e' hk1 hk2 hg'
          by_cases hkn : k = n
          · subst hkn
            rw [hg] at hg'
            exact Option.noConfusion hg'
          · exact hall k e' hk1 (by omega) hg'

/-- A bullet overlapping both of the two enemies below. -/
def ceBullet : Rect := { x := 100, y := 100, w := 4, h := 10 }

/-- First enemy in storage order (index 0), overlapping `ceBullet`. -/
def ceEnemyA : Enemy :=
  { x := 90, y := 95, width := 30, height := 30,
    maxHealth := 3, currentHealth := 3, healthBarVisible := false }

/-- Second enemy in storage order (index 1), also overlapping `ceBullet`. -/
def ceEnemyB : Enemy :=
  { x := 95, y := 98, width := 30, height := 30,
    maxHealth := 3, currentHealth := 3, healthBarVisible := false }

/-- C4 counterexample: a bullet overlapping the enemies at indices 0 and 1
is consumed by the enemy at index 1 (the downward scan hits the last
overlapping index first); the enemy at index 0 overlaps too but is left
untouched, contradicting the claimed index-0-upward tie-break. -/
theorem C4_counterexample :
    bulletHitIndex ceBullet ([ceEnemyA, ceEnemyB].map enemyRect) = some 1 ∧
    rectsOverlap ceBullet (enemyRect ceEnemyA) = true ∧
    (bulletEnemyPass ceBullet [ceEnemyA, ceEnemyB] 0).1 =
      [ceEnemyA,
        { ceEnemyB with currentHealth := 2, healthBarVisible := true }] := by
  refine ⟨?_, ?_, ?_⟩
  · with_unfolding_all decide
  · with_unfolding_all decide
  · with_unfolding_all decide

/-- C4 amended: the bullet is consumed by the LAST overlapping enemy in the
list's storage order (no later index overlaps), and the flat 1 point of
damage is applied to that enemy alone: every other entry of the list is
unchanged (with a splice-out of the struck entry when it is destroyed). -/
theorem C4_amended (b : Rect) (es : List Enemy) (sc : ℤ) (j : ℕ)
    (h : bulletHitIndex b (es.map enemyRect) = some j) :
    ∃ e, es.get? j = some e ∧ rectsOverlap b (enemyRect e) = true ∧
      (∀ k e', j < k → es.get? k = some e' →
        rectsOverlap b (enemyRect e') = false) ∧
      (bulletEnemyPass b es sc).2.2 = true ∧
      ((takeDamage e 1).2 = false →
        (bulletEnemyPass b es sc).1 = es.set j (takeDamage e 1).1 ∧
        (bulletEnemyPass b es sc).2.1 = sc) ∧
      ((takeDamage e 1).2 = true →
        (bulletEnemyPass b es sc).1 = es.eraseIdx j ∧
        (bulletEnemyPass b es sc).2.1 = sc + 10) := by
  obtain ⟨hjn, ⟨er, hger, hover⟩, hall⟩ :=
    lastOverlapAux_spec b (es.map enemyRect) (es.map enemyRect).length j h
  rw [List.get?_eq_getElem?, List.getElem?_map, ← List.get?_eq_getElem?] at hger
  cases hge : es.get? j with
  | none => rw [hge] at hger; exact Option.noConfusion hger
  | some e =>
      rw [hge] at hger
      have he : enemyRect e = er := Option.some_inj.mp hger
      refine ⟨e, rfl, he ▸ hover, ?_, ?_, ?_, ?_⟩
      · intro k e' hk hgk
        have hkl : k < es.length := by
          by_contra hcon
          rw [List.get?_eq_none.mpr (by omega)] at hgk
          exact Option.noConfusion hgk
        refine hall k (enemyRect e') hk (by rw [List.length_map]; omega) ?_
        rw [List.get?_eq_getElem?, List.getElem?_map, ← List.get?_eq_getElem?, hgk]
        rfl
      · simp only [bulletEnemyPass, h, hge]
        by_cases hd : (takeDamage e 1).2 = true
        · rw [if_pos hd]
        · rw [if_neg hd]
      · intro hd
        have hge2 : es[j]? = some e := by
          rw [← List.get?_eq_getElem?]
          exact hge
        simp [bulletEnemyPass, h, hge2, hd]
      · intro hd
        have hge2 : es[j]? = some e := by
          rw [← List.get?_eq_getElem?]
          exact hge
        simp [bulletEnemyPass, h, hge2, hd]

/-- Witness for C4's amended statement at the two-enemy configuration. -/
theorem C4_amended_witness :
    ∃ e, ([ceEnemyA, ceEnemyB] : List Enemy).get? 1 = some e ∧
      rectsOverlap ceBullet (enemyRect e) = true ∧
      (∀ k e', 1 < k → ([ceEnemyA, ceEnemyB] : List Enemy).get? k = some e' →
        rectsOverlap ceBullet (enemyRect e') = false) ∧
      (bulletEnemyPass ceBullet [ceEnemyA, ceEnemyB] 0).2.2 = true ∧
      ((takeDamage e 1).2 = false →
        (bulletEnemyPass ceBullet [ceEnemyA, ceEnemyB] 0).1 =
          ([ceEnemyA, ceEnemyB] : List Enemy).set 1 (takeDamage e 1).1 ∧
        (bulletEnemyPass ceBullet [ceEnemyA, ceEnemyB] 0).2.1 = 0) ∧
      ((takeDamage e 1).2 = true →
        (bulletEnemyPass ceBullet [ceEnemyA, ceEnemyB] 0).1 =
          ([ceEnemyA, ceEnemyB] : List Enemy).eraseIdx 1 ∧
        (bulletEnemyPass ceBullet [ceEnemyA, ceEnemyB] 0).2.1 = 0 + 10) :=
  C4_amended ceBullet [ceEnemyA, ceEnemyB] 0 1 (by with_unfolding_all decide)

end SpaceShooter

namespace SpaceShooter

/-- The six keys of `POWER_UP_TYPES`. -/
inductive PowerUpType
  | RAPID_FIRE
  | MULTI_SHOT
  | LASER_BEAM
  | SHIELD_GENERATOR
  | TIME_SLOW
  | EXPLOSIVE_ROUNDS
deriving DecidableEq

/-- The `duration` field of each catalog entry, in milliseconds. -/
def powerUpDuration : PowerUpType → ℕ
  | .RAPID_FIRE => 10000
  | .MULTI_SHOT => 15000
  | .LASER_BEAM => 8000
  | .SHIELD_GENERATOR => 5000
  | .TIME_SLOW => 12000
  | .EXPLOSIVE_ROUNDS => 20000

/-- An entry of `PowerUpManager.activePowerUps`: the effect object built in
`addPowerUp` (its `type` and `config` fields duplicate the key and the
static catalog entry and are omitted; `active` is stored but never read). -/
structure Effect where
  startTime : ℕ
  endTime : ℕ
  active : Bool
deriving DecidableEq

/-- In-place update of the stored effect's `endTime`
(`existingEffect.endTime = now + typeConfig.duration`): the entry keeps its
key, `startTime` and position in the map. -/
def mapUpdateEnd (m : List (PowerUpType × Effect)) (t : PowerUpType)
    (newEnd : ℕ) : List (PowerUpType × Effect) :=
  match m with
  | [] => []
  | (k0, v0) :: rest =>
      if k0 = t then (k0, { v0 with endTime := newEnd }) :: rest
      else (k0, v0) :: mapUpdateEnd rest t newEnd

/-- Number of entries stored under a given type. -/
def keyCount (m : List (PowerUpType × Effect)) (t : PowerUpType) : ℕ :=
  m.countP (fun p => decide (p.1 = t))

/-- `PowerUpManager.addPowerUp(type)` at clock time `now`, for a valid
type: if the type is already active refresh the stored effect's `endTime`
to `now + duration` (no hook), otherwise insert a fresh effect and invoke
the enable hook `applyPowerUpEffect(type, true)`.
Returns (table, returned-boolean, enable-hook-invoked). -/
def addPowerUp (table : List (PowerUpType × Effect)) (t : PowerUpType)
    (now : ℕ) : List (PowerUpType × Effect) × Bool × Bool :=
  if (mapGet table t).isSome then
    (mapUpdateEnd table t (now + powerUpDuration t), true, false)
  else
    (table ++ [(t, { startTime := now, endTime := now + powerUpDuration t,
                     active := true })],
      true, true)

lemma keyCount_eq_zero (m : List (PowerUpType × Effect)) (t : PowerUpType)
    (h : mapGet m t = none) : keyCount m t = 0 := by
  induction m with
  | nil => rfl
  | cons p rest ih =>
      by_cases hk : p.1 = t
      · rw [show mapGet (p :: rest) t = some p.2 by
          simp [mapGet, hk]] at h
        exact Option.noConfusion h
      · have h2 : mapGet rest t = none := by
          rw [show mapGet (p :: rest) t = mapGet rest t by
            simp [mapGet, hk]] at h
          exact h
        simp [keyCount, List.countP_cons, hk] at ih ⊢
        exact ih h2

lemma mapGet_append_single (m : List (PowerUpType × Effect)) (t : PowerUpType)
    (e : Effect) (h : mapGet m t = none) : mapGet (m ++ [(t, e)]) t = some e := by
  induction m with
  | nil => simp [mapGet]
  | cons p rest ih =>
      by_cases hk : p.1 = t
      · rw [show mapGet (p :: rest) t = some p.2 by simp [mapGet, hk]] at h
        exact Option.noConfusion h
      · have h2 : mapGet rest t = none := by
          rw [show mapGet (p :: rest) t = mapGet rest t by simp [mapGet, hk]] at h
          exact h
        rw [List.cons_append,
          show mapGet (p :: (rest ++ [(t, e)])) t = mapGet (rest ++ [(t, e)]) t by
            simp [mapGet, hk]]
        exact ih h2

lemma keyCount_append_single (m : List (PowerUpType × Effect)) (t : PowerUpType)
    (e : Effect) : keyCount (m ++ [(t, e)]) t = keyCount m t + 1 := by
  simp [keyCount, List.countP_append, List.countP_cons]

lemma keyCount_mapUpdateEnd (m : List (PowerUpType × Effect)) (t : PowerUpType)
    (v : ℕ) : keyCount (mapUpdateEnd m t v) t = keyCount m t := by
  induction m with
  | nil => rfl
  | cons p rest ih =>
      by_cases hk : p.1 = t
      · simp [mapUpdateEnd, hk, keyCount, List.countP_cons]
      · simp only [mapUpdateEnd, hk, if_false]
        simp [keyCount, List.countP_cons, hk] at ih ⊢
        exact ih

lemma mapGet_mapUpdateEnd (m : List (PowerUpType × Effect)) (t : PowerUpType)
    (v : ℕ) :
    mapGet (mapUpdateEnd m t v) t =
      Option.map (fun e => { e with endTime := v }) (mapGet m t) := by
  induction m with
  | nil => rfl
  | cons p rest ih =>
      by_cases hk : p.1 = t
      · simp [mapUpdateEnd, mapGet, hk]
      · simp only [mapUpdateEnd, hk, if_false]
        rw [show mapGet ((p.1, p.2) :: mapUpdateEnd rest t v) t
            = mapGet (mapUpdateEnd rest t v) t by simp [mapGet, hk],
          show mapGet (p :: rest) t = mapGet rest t by simp [mapGet, hk]]
        exact ih

/-- C5: collecting a type that is not yet active invokes the enable hook
and stores one effect; collecting it again (still active) keeps exactly one
entry for that type, whose `endTime` is the second pickup's time plus the
static duration (start time unchanged, nothing stacked), and does not
re-invoke the enable hook. -/
theorem C5_powerup_refresh (table : List (PowerUpType × Effect))
    (t : PowerUpType) (t1 t2 : ℕ) (h : mapGet table t = none) :
    (addPowerUp table t t1).2.2 = true ∧
    (addPowerUp (addPowerUp table t t1).1 t t2).2.2 = false ∧
    keyCount (addPowerUp (addPowerUp table t t1).1 t t2).1 t = 1 ∧
    mapGet (addPowerUp (addPowerUp table t t1).1 t t2).1 t =
      some { startTime := t1, endTime := t2 + powerUpDuration t,
             active := true } := by
  have hE : addPowerUp table t t1 =
      (table ++ [(t, Effect.mk t1 (t1 + powerUpDuration t) true)], true, true) := by
    unfold addPowerUp
    rw [h]
    simp
  have hgE : mapGet (table ++ [(t, Effect.mk t1 (t1 + powerUpDuration t) true)]) t =
      some (Effect.mk t1 (t1 + powerUpDuration t) true) :=
    mapGet_append_single table t _ h
  have h2 : addPowerUp (table ++ [(t, Effect.mk t1 (t1 + powerUpDuration t) true)]) t t2 =
      (mapUpdateEnd (table ++ [(t, Effect.mk t1 (t1 + powerUpDuration t) true)]) t
          (t2 + powerUpDuration t), true, false) := by
    unfold addPowerUp
    rw [hgE]
    simp
  refine ⟨by rw [hE], ?_, ?_, ?_⟩
  · rw [hE]
    show (addPowerUp
      (table ++ [(t, Effect.mk t1 (t1 + powerUpDuration t) true)]) t t2).2.2 = false
    rw [h2]
  · rw [hE]
    show keyCount (addPowerUp
      (table ++ [(t, Effect.mk t1 (t1 + powerUpDuration t) true)]) t t2).1 t = 1
    rw [h2]
    show keyCount (mapUpdateEnd _ t (t2 + powerUpDuration t)) t = 1
    rw [keyCount_mapUpdateEnd, keyCount_append_single, keyCount_eq_zero table t h]
  · rw [hE]
    show mapGet (addPowerUp
        (table ++ [(t, Effect.mk t1 (t1 + powerUpDuration t) true)]) t t2).1 t =
      some (Effect.mk t1 (t2 + powerUpDuration t) true)
    rw [h2]
    show mapGet (mapUpdateEnd _ t (t2 + powerUpDuration t)) t = _
    rw [mapGet_mapUpdateEnd, hgE]
    rfl

/-- Witness for C5: Rapid Fire picked up at 100 ms and again at 5000 ms. -/
theorem C5_powerup_refresh_witness :
    mapGet ([] : List (PowerUpType × Effect)) PowerUpType.RAPID_FIRE = none ∧
    ((addPowerUp [] PowerUpType.RAPID_FIRE 100).2.2 = true ∧
      (addPowerUp (addPowerUp [] PowerUpType.RAPID_FIRE 100).1
          PowerUpType.RAPID_FIRE 5000).2.2 = false ∧
      keyCount (addPowerUp (addPowerUp [] PowerUpType.RAPID_FIRE 100).1
          PowerUpType.RAPID_FIRE 5000).1 PowerUpType.RAPID_FIRE = 1 ∧
      mapGet (addPowerUp (addPowerUp [] PowerUpType.RAPID_FIRE 100).1
          PowerUpType.RAPID_FIRE 5000).1 PowerUpType.RAPID_FIRE =
        some { startTime := 100,
               endTime := 5000 + powerUpDuration PowerUpType.RAPID_FIRE,
               active := true }) :=
  ⟨rfl, C5_powerup_refresh [] PowerUpType.RAPID_FIRE 100 5000 rfl⟩

end SpaceShooter

namespace SpaceShooter

/-- The mutable state touched by the power-up enable/disable hooks: the
player's seven power-up flags, the global `window.timeSlowMultiplier`, and
the global `laserActive` switch. -/
structure EffectsWorld where
  rapidFireActive : Bool
  multiShotActive : Bool
  laserBeamActive : Bool
  shieldActive : Bool
  invincible : Bool
  timeSlowActive : Bool
  explosiveRoundsActive : Bool
  timeSlowMultiplier : ℚ
  laserActive : Bool
deriving DecidableEq

/-- `PowerUpManager.applyPowerUpEffect(type, activate)` and the hook
functions it dispatches to: each type's enable hook sets its player flag(s)
(and the laser / time-slow globals), each disable hook resets them. -/
def applyPowerUpEffect (t : PowerUpType) (activate : Bool)
    (w : EffectsWorld) : EffectsWorld :=
  match t with
  | .RAPID_FIRE => { w with rapidFireActive := activate }
  | .MULTI_SHOT => { w with multiShotActive := activate }
  | .LASER_BEAM => { w with laserBeamActive := activate, laserActive := activate }
  | .SHIELD_GENERATOR => { w with shieldActive := activate, invincible := activate }
  | .TIME_SLOW => { w with timeSlowActive := activate,
                           timeSlowMultiplier := if activate then 1/2 else 1 }
  | .EXPLOSIVE_ROUNDS => { w with explosiveRoundsActive := activate }

/-- The first phase of `clearAllPowerUps()`: `applyPowerUpEffect(type,
false)` for every key of `activePowerUps`, in map (insertion) order. -/
def foldDisable (table : List (PowerUpType × Effect)) (w : EffectsWorld) :
    EffectsWorld :=
  table.foldl (fun wa p => applyPowerUpEffect p.1 false wa) w

/-- `PowerUpManager.clearAllPowerUps()`: disable every active type, then
force the laser off, reset `window.timeSlowMultiplier` to 1.0, and clear
the table.  Also returns the list of types whose disable hook ran, in
invocation order (all of them, before the table is cleared). -/
def clearAllPowerUps (table : List (PowerUpType × Effect)) (w : EffectsWorld) :
    List (PowerUpType × Effect) × EffectsWorld × List PowerUpType :=
  let w1 := foldDisable table w
  let w2 := { w1 with laserActive := false, timeSlowMultiplier := 1 }
  ([], w2, table.map Prod.fst)

lemma foldDisable_flag (f : EffectsWorld → Bool) (t0 : PowerUpType)
    (hset : ∀ w, f (applyPowerUpEffect t0 false w) = false)
    (hpres : ∀ t w, t ≠ t0 → f (applyPowerUpEffect t false w) = f w) :
    ∀ (L : List (PowerUpType × Effect)) (w : EffectsWorld),
      f (foldDisable L w) =
        if t0 ∈ L.map Prod.fst then false else f w := by
  intro L
  induction L with
  | nil =>
      intro w
      simp [foldDisable]
  | cons p L ih =>
      intro w
      have hstep : foldDisable (p :: L) w
          = foldDisable L (applyPowerUpEffect p.1 false w) := rfl
      rw [hstep, ih]
      by_cases hp : p.1 = t0
      · subst hp
        by_cases hm : p.1 ∈ L.map Prod.fst
        · simp [hm, hset]
        · simp [hm, hset]
      · rw [hpres p.1 w (fun hc => hp hc)]
        by_cases hm : t0 ∈ L.map Prod.fst
        · have hmem : t0 ∈ (p :: L).map Prod.fst := by
            simp only [List.map_cons, List.mem_cons]
            exact Or.inr hm
          rw [if_pos hm, if_pos hmem]
        · have hmem : t0 ∉ (p :: L).map Prod.fst := by
            simp only [List.map_cons, List.mem_cons]
            rintro (hc | hc)
            · exact hp hc.symm
            · exact hm hc
          rw [if_neg hm, if_neg hmem]

lemma flag_cleared (b : Bool) (c : Prop) [Decidable c] (himp : b = true → c) :
    (if c then false else b) = false := by
  by_cases hc : c
  · rw [if_pos hc]
  · rw [if_neg hc]
    cases hb : b
    · rfl
    · exact absurd (himp hb) hc

lemma foldDisable_rapidFire (L : List (PowerUpType × Effect)) (w : EffectsWorld) :
    (foldDisable L w).rapidFireActive =
      if PowerUpType.RAPID_FIRE ∈ L.map Prod.fst then false
      else w.rapidFireActive :=
  foldDisable_flag (fun w => w.rapidFireActive) PowerUpType.RAPID_FIRE
    (fun _ => rfl)
    (fun t w ht => by cases t <;> first | rfl | exact absurd rfl ht) L w

lemma foldDisable_multiShot (L : List (PowerUpType × Effect)) (w : EffectsWorld) :
    (foldDisable L w).multiShotActive =
      if PowerUpType.MULTI_SHOT ∈ L.map Prod.fst then false
      else w.multiShotActive :=
  foldDisable_flag (fun w => w.multiShotActive) PowerUpType.MULTI_SHOT
    (fun _ => rfl)
    (fun t w ht => by cases t <;> first | rfl | exact absurd rfl ht) L w

lemma foldDisable_laserBeam (L : List (PowerUpType × Effect)) (w : EffectsWorld) :
    (foldDisable L w).laserBeamActive =
      if PowerUpType.LASER_BEAM ∈ L.map Prod.fst then false
      else w.laserBeamActive :=
  foldDisable_flag (fun w => w.laserBeamActive) PowerUpType.LASER_BEAM
    (fun _ => rfl)
    (fun t w ht => by cases t <;> first | rfl | exact absurd rfl ht) L w

lemma foldDisable_shield (L : List (PowerUpType × Effect)) (w : EffectsWorld) :
    (foldDisable L w).shieldActive =
      if PowerUpType.SHIELD_GENERATOR ∈ L.map Prod.fst then false
      else w.shieldActive :=
  foldDisable_flag (fun w => w.shieldActive) PowerUpType.SHIELD_GENERATOR
    (fun _ => rfl)
    (fun t w ht => by cases t <;> first | rfl | exact absurd rfl ht) L w

lemma foldDisable_invincible (L : List (PowerUpType × Effect)) (w : EffectsWorld) :
    (foldDisable L w).invincible =
      if PowerUpType.SHIELD_GENERATOR ∈ L.map Prod.fst then false
      else w.invincible :=
  foldDisable_flag (fun w => w.invincible) PowerUpType.SHIELD_GENERATOR
    (fun _ => rfl)
    (fun t w ht => by cases t <;> first | rfl | exact absurd rfl ht) L w

lemma foldDisable_timeSlow (L : List (PowerUpType × Effect)) (w : EffectsWorld) :
    (foldDisable L w).timeSlowActive =
      if PowerUpType.TIME_SLOW ∈ L.map Prod.fst then false
      else w.timeSlowActive :=
  foldDisable_flag (fun w => w.timeSlowActive) PowerUpType.TIME_SLOW
    (fun _ => rfl)
    (fun t w ht => by cases t <;> first | rfl | exact absurd rfl ht) L w

lemma foldDisable_explosive (L : List (PowerUpType × Effect)) (w : EffectsWorld) :
    (foldDisable L w).explosiveRoundsActive =
      if PowerUpType.EXPLOSIVE_ROUNDS ∈ L.map Prod.fst then false
      else w.explosiveRoundsActive :=
  foldDisable_flag (fun w => w.explosiveRoundsActive) PowerUpType.EXPLOSIVE_ROUNDS
    (fun _ => rfl)
    (fun t w ht => by cases t <;> first | rfl | exact absurd rfl ht) L w

/-- C6: after `clearAllPowerUps()`, starting from any state in which a set
player flag has its controlling type active in the table (the invariant the
hooks maintain): the table is empty, all seven player flags are false, the
time-slow multiplier is 1.0, the laser switch is off, and the disable hooks
were invoked exactly for the table's keys, in order, before the clear. -/
theorem C6_clear_all (table : List (PowerUpType × Effect)) (w : EffectsWorld)
    (h1 : w.rapidFireActive = true → PowerUpType.RAPID_FIRE ∈ table.map Prod.fst)
    (h2 : w.multiShotActive = true → PowerUpType.MULTI_SHOT ∈ table.map Prod.fst)
    (h3 : w.laserBeamActive = true → PowerUpType.LASER_BEAM ∈ table.map Prod.fst)
    (h4 : w.shieldActive = true → PowerUpType.SHIELD_GENERATOR ∈ table.map Prod.fst)
    (h5 : w.invincible = true → PowerUpType.SHIELD_GENERATOR ∈ table.map Prod.fst)
    (h6 : w.timeSlowActive = true → PowerUpType.TIME_SLOW ∈ table.map Prod.fst)
    (h7 : w.explosiveRoundsActive = true →
      PowerUpType.EXPLOSIVE_ROUNDS ∈ table.map Prod.fst) :
    (clearAllPowerUps table w).1 = [] ∧
    (clearAllPowerUps table w).2.1.rapidFireActive = false ∧
    (clearAllPowerUps table w).2.1.multiShotActive = false ∧
    (clearAllPowerUps table w).2.1.laserBeamActive = false ∧
    (clearAllPowerUps table w).2.1.shieldActive = false ∧
    (clearAllPowerUps table w).2.1.invincible = false ∧
    (clearAllPowerUps table w).2.1.timeSlowActive = false ∧
    (clearAllPowerUps table w).2.1.explosiveRoundsActive = false ∧
    (clearAllPowerUps table w).2.1.timeSlowMultiplier = 1 ∧
    (clearAllPowerUps table w).2.1.laserActive = false ∧
    (clearAllPowerUps table w).2.2 = table.map Prod.fst := by
  refine ⟨rfl, ?_, ?_, ?_, ?_, ?_, ?_, ?_, rfl, rfl, rfl⟩
  · show (foldDisable table w).rapidFireActive = false
    rw [foldDisable_rapidFire]
    exact flag_cleared _ _ h1
  · show (foldDisable table w).multiShotActive = false
    rw [foldDisable_multiShot]
    exact flag_cleared _ _ h2
  · show (foldDisable table w).laserBeamActive = false
    rw [foldDisable_laserBeam]
    exact flag_cleared _ _ h3
  · show (foldDisable table w).shieldActive = false
    rw [foldDisable_shield]
    exact flag_cleared _ _ h4
  · show (foldDisable table w).invincible = false
    rw [foldDisable_invincible]
    exact flag_cleared _ _ h5
  · show (foldDisable table w).timeSlowActive = false
    rw [foldDisable_timeSlow]
    exact flag_cleared _ _ h6
  · show (foldDisable table w).explosiveRoundsActive = false
    rw [foldDisable_explosive]
    exact flag_cleared _ _ h7

/-- A fully loaded world: all six effects active, every flag set, the
time-slow multiplier at its halved value, the laser on. -/
def ceWorld : EffectsWorld :=
  { rapidFireActive := true, multiShotActive := true, laserBeamActive := true,
    shieldActive := true, invincible := true, timeSlowActive := true,
    explosiveRoundsActive := true, timeSlowMultiplier := 1/2,
    laserActive := true }

/-- A table holding one active effect of every type. -/
def ceTable : List (PowerUpType × Effect) :=
  [(PowerUpType.RAPID_FIRE, Effect.mk 0 10000 true),
    (PowerUpType.MULTI_SHOT, Effect.mk 0 15000 true),
    (PowerUpType.LASER_BEAM, Effect.mk 0 8000 true),
    (PowerUpType.SHIELD_GENERATOR, Effect.mk 0 5000 true),
    (PowerUpType.TIME_SLOW, Effect.mk 0 12000 true),
    (PowerUpType.EXPLOSIVE_ROUNDS, Effect.mk 0 20000 true)]

/-- Witness for C6 with all six effects active at once. -/
theorem C6_clear_all_witness :
    (clearAllPowerUps ceTable ceWorld).1 = [] ∧
    (clearAllPowerUps ceTable ceWorld).2.1.rapidFireActive = false ∧
    (clearAllPowerUps ceTable ceWorld).2.1.multiShotActive = false ∧
    (clearAllPowerUps ceTable ceWorld).2.1.laserBeamActive = false ∧
    (clearAllPowerUps ceTable ceWorld).2.1.shieldActive = false ∧
    (clearAllPowerUps ceTable ceWorld).2.1.invincible = false ∧
    (clearAllPowerUps ceTable ceWorld).2.1.timeSlowActive = false ∧
    (clearAllPowerUps ceTable ceWorld).2.1.explosiveRoundsActive = false ∧
    (clearAllPowerUps ceTable ceWorld).2.1.timeSlowMultiplier = 1 ∧
    (clearAllPowerUps ceTable ceWorld).2.1.laserActive = false ∧
    (clearAllPowerUps ceTable ceWorld).2.2 = ceTable.map Prod.fst :=
  C6_clear_all ceTable ceWorld
    (fun _ => by simp [ceTable])
    (fun _ => by simp [ceTable])
    (fun _ => by simp [ceTable])
    (fun _ => by simp [ceTable])
    (fun _ => by simp [ceTable])
    (fun _ => by simp [ceTable])
    (fun _ => by simp [ceTable])

end SpaceShooter
